import Mathlib

/-!
Verification of the vector-storage / IVF-FLAT index / top-k search design
implemented around `src/data_insert.py`.

The script itself is orchestration: it loads a CSV, computes 384-dimensional
embeddings, creates a Milvus collection (dropping an existing one with the
same name), inserts the rows, flushes, builds an `IVF_FLAT` index with
`metric_type = "L2"` and `nlist = 128`, and searches with `nprobe = 10` and
`limit = 3`.  The storage / clustering / index / query core it delegates to
the external database is modelled here from the specification (those
definitions carry a `Modelled from the spec:` doc comment); the script's own
functions (`create_milvus_collection`, `insert_data_to_milvus`,
`create_index` parameters, `search_similar_data` parameters,
`generate_embeddings`) are embedded directly from the source.

Scalars: the spec's `float32` values are abstracted as exact integers for the
storage/search layer (all comparisons and squared-L2 distances are exact, and
every concrete scenario is kernel-computable), and as exact rationals for the
k-means clusterer, whose centroid recomputation needs division.
-/

/-- Modelled from the spec: squared Euclidean (L2) distance between two
vectors, the metric used for cluster assignment and exact scoring. -/
def sqL2 (u v : List Int) : Int :=
  (List.zipWith (fun a b => (a - b) * (a - b)) u v).sum

/-- Modelled from the spec: a stored record — caller-assigned `int64` primary
key, ordered metadata fields, and a fixed-length embedding vector. -/
structure Record where
  id : Int
  metadata : List (String × String)
  vector : List Int
deriving DecidableEq

/-- Modelled from the spec: the error taxonomy of §7. -/
inductive StoreError where
  | DimensionMismatch
  | DuplicateId
  | NotFound
  | IndexNotBuilt
  | AlreadyExists
  | InvalidParameter
deriving DecidableEq

instance {ε α : Type} [DecidableEq ε] [DecidableEq α] : DecidableEq (Except ε α) := fun a b =>
  match a, b with
  | Except.error e1, Except.error e2 =>
    if h : e1 = e2 then isTrue (by rw [h]) else isFalse (by simp [h])
  | Except.ok v1, Except.ok v2 =>
    if h : v1 = v2 then isTrue (by rw [h]) else isFalse (by simp [h])
  | Except.error _, Except.ok _ => isFalse (by simp)
  | Except.ok _, Except.error _ => isFalse (by simp)

/-- Modelled from the spec: the VectorStore — append-only columnar storage
with a buffer of inserted-but-not-yet-flushed records and the flushed
(visible) records, for a collection of dimension `dim`. -/
structure VectorStore where
  dim : Nat
  flushed : List Record
  buffer : List Record
deriving DecidableEq

/-- All primary keys currently present in the store (buffered or flushed). -/
def storeIds (s : VectorStore) : List Int :=
  (s.flushed ++ s.buffer).map (fun r => r.id)

/-- Modelled from the spec: `insert` fails with `DimensionMismatch` if any
vector's length differs from the collection dimension, fails with
`DuplicateId` if an id already exists in the store, and otherwise buffers the
records (visible only after `flush`).  Rejection is atomic: on error no new
state is produced. -/
def VectorStore.insert (s : VectorStore) (recs : List Record) :
    Except StoreError VectorStore :=
  if recs.any (fun r => decide (r.vector.length ≠ s.dim)) then
    Except.error StoreError.DimensionMismatch
  else if recs.any (fun r => decide (r.id ∈ storeIds s)) then
    Except.error StoreError.DuplicateId
  else
    Except.ok { s with buffer := s.buffer ++ recs }

/-- Modelled from the spec: `flush` makes all buffered records visible;
idempotent when nothing is buffered. -/
def VectorStore.flush (s : VectorStore) : VectorStore :=
  { s with flushed := s.flushed ++ s.buffer, buffer := [] }

/-- Modelled from the spec: `count` is the number of flushed records. -/
def VectorStore.count (s : VectorStore) : Nat :=
  s.flushed.length

/-- Modelled from the spec: `get` retrieves a flushed record by id, or
`NotFound`. -/
def VectorStore.get (s : VectorStore) (i : Int) : Except StoreError Record :=
  match s.flushed.find? (fun r => decide (r.id = i)) with
  | some r => Except.ok r
  | none => Except.error StoreError.NotFound

/-- Modelled from the spec: centroid-probing order key — centroids are ranked
by distance to the query, ties broken by lowest `cluster_id`. -/
def centRel (a b : Int × Nat) : Prop :=
  a.1 < b.1 ∨ (a.1 = b.1 ∧ a.2 ≤ b.2)

instance : DecidableRel centRel := fun a b =>
  inferInstanceAs (Decidable (a.1 < b.1 ∨ (a.1 = b.1 ∧ a.2 ≤ b.2)))

instance : IsTrans (Int × Nat) centRel where
  trans a b c hab hbc := by
    unfold centRel at *
    omega

instance : IsTotal (Int × Nat) centRel where
  total a b := by
    unfold centRel
    omega

/-- Modelled from the spec: result ordering — ascending by distance, ties
broken by lowest record id (results are `(id, distance)` pairs). -/
def resRel (a b : Int × Int) : Prop :=
  a.2 < b.2 ∨ (a.2 = b.2 ∧ a.1 ≤ b.1)

instance : DecidableRel resRel := fun a b =>
  inferInstanceAs (Decidable (a.2 < b.2 ∨ (a.2 = b.2 ∧ a.1 ≤ b.1)))

instance : IsTrans (Int × Int) resRel where
  trans a b c hab hbc := by
    unfold resRel at *
    omega

instance : IsTotal (Int × Int) resRel where
  total a b := by
    unfold resRel
    omega

instance : IsAntisymm (Int × Int) resRel where
  antisymm a b hab hba := by
    unfold resRel at *
    have h1 : a.1 = b.1 := by omega
    have h2 : a.2 = b.2 := by omega
    exact Prod.ext h1 h2

/-- Modelled from the spec: all centroid indices ordered by distance to the
query (ascending, ties by lowest `cluster_id`). -/
def probeOrder (cents : List (List Int)) (q : List Int) : List Nat :=
  (List.insertionSort centRel
    ((List.range cents.length).map (fun c => (sqL2 q (cents.getD c []), c)))).map
    (fun p => p.2)

/-- Modelled from the spec: the `nprobe` centroids nearest to the query; if
`nprobe` is at least the number of centroids, all of them are probed. -/
def probeList (cents : List (List Int)) (q : List Int) (nprobe : Nat) : List Nat :=
  (probeOrder cents q).take nprobe

/-- Modelled from the spec: index of the centroid nearest to `v` by squared
L2 distance, ties broken by lowest `cluster_id`. -/
def nearestCentroid (cents : List (List Int)) (v : List Int) : Nat :=
  (probeOrder cents v).headD 0

/-- Modelled from the spec: the IVF index — a centroid table together with
one posting list of record ids per centroid. -/
structure IVFIndex where
  centroids : List (List Int)
  postings : List (List Int)
deriving DecidableEq

/-- Modelled from the spec: `IVFIndex.build` assigns every flushed record to
its nearest centroid's posting list (store order preserved inside each list);
it fully replaces any previous index state. -/
def IVFIndex.build (store : VectorStore) (cents : List (List Int)) : IVFIndex :=
  { centroids := cents
    postings := (List.range cents.length).map (fun c =>
      (store.flushed.filter (fun r => decide (nearestCentroid cents r.vector = c))).map
        (fun r => r.id)) }

/-- Modelled from the spec: candidate `(id, exact distance)` pairs drawn from
the posting lists of the probed centroids. -/
def searchCandidates (idx : IVFIndex) (store : VectorStore) (q : List Int)
    (nprobe : Nat) : List (Int × Int) :=
  ((probeList idx.centroids q nprobe).flatMap (fun c => idx.postings.getD c [])).filterMap
    (fun i => (store.flushed.find? (fun r => decide (r.id = i))).map
      (fun r => (i, sqL2 q r.vector)))

/-- Modelled from the spec: exact scoring of the candidates, returning the
`k` smallest by distance, ascending, ties broken by lowest record id. -/
def searchCore (idx : IVFIndex) (store : VectorStore) (q : List Int)
    (k nprobe : Nat) : List (Int × Int) :=
  (List.insertionSort resRel (searchCandidates idx store q nprobe)).take k

/-- Modelled from the spec: `QueryEngine.search` — rejects a query of the
wrong dimension with `DimensionMismatch` and invalid `k`/`nprobe` with
`InvalidParameter`, otherwise returns the top-k candidates of the probed
clusters. -/
def QueryEngine.search (idx : IVFIndex) (store : VectorStore) (q : List Int)
    (k nprobe : Nat) : Except StoreError (List (Int × Int)) :=
  if q.length ≠ store.dim then Except.error StoreError.DimensionMismatch
  else if k = 0 then Except.error StoreError.InvalidParameter
  else if nprobe = 0 then Except.error StoreError.InvalidParameter
  else Except.ok (searchCore idx store q k nprobe)

/-- The brute-force linear-scan oracle the spec states 100%-recall against:
score every flushed record exactly and return the `k` smallest by distance,
ascending, ties broken by lowest record id. -/
def bruteForceTopK (store : VectorStore) (q : List Int) (k : Nat) : List (Int × Int) :=
  (List.insertionSort resRel
    (store.flushed.map (fun r => (r.id, sqL2 q r.vector)))).take k

/-- Modelled from the spec: squared L2 distance over the rational-valued
vectors used by the clusterer. -/
def sqL2q (u v : List Rat) : Rat :=
  (List.zipWith (fun a b => (a - b) * (a - b)) u v).sum

/-- Modelled from the spec: index of the centroid nearest to `v` by squared
L2 distance, ties broken by lowest cluster index (rational version used
during clustering). -/
def nearestCentroidQ (cents : List (List Rat)) (v : List Rat) : Nat :=
  match cents.map (fun c => sqL2q v c) with
  | [] => 0
  | d0 :: rest =>
    (rest.foldl
      (fun acc d => if d < acc.2.1 then (acc.2.2 + 1, d, acc.2.2 + 1) else (acc.1, acc.2.1, acc.2.2 + 1))
      (0, d0, 0)).1

/-- Componentwise sum of two vectors. -/
def vecAdd (u v : List Rat) : List Rat :=
  List.zipWith (fun a b => a + b) u v

/-- Modelled from the spec: componentwise mean of a nonempty group of
vectors (empty input gives the empty vector). -/
def centroidMean (vs : List (List Rat)) : List Rat :=
  match vs with
  | [] => []
  | v :: rest => (rest.foldl vecAdd v).map (fun a => a / ((rest.length + 1 : Nat) : Rat))

/-- Modelled from the spec: the globally farthest currently-assigned vector —
the input vector at maximal squared distance from its assigned centroid,
earliest occurrence on ties — used to reseed a centroid whose cluster became
empty. -/
def farthestAssigned (vectors : List (List Rat)) (cents : List (List Rat)) : List Rat :=
  match vectors with
  | [] => []
  | v0 :: rest =>
    (rest.foldl
      (fun acc v =>
        let dv := sqL2q v (cents.getD (nearestCentroidQ cents v) [])
        if acc.2 < dv then (v, dv) else acc)
      (v0, sqL2q v0 (cents.getD (nearestCentroidQ cents v0) []))).1

/-- Modelled from the spec: one k-means iteration — assign every vector to
its nearest centroid, then recompute each centroid as the mean of its
assigned vectors, reseeding empty clusters from the globally farthest
assigned vector. -/
def kmeansStep (vectors : List (List Rat)) (cents : List (List Rat)) : List (List Rat) :=
  (List.range cents.length).map (fun c =>
    let assigned := vectors.filter (fun v => decide (nearestCentroidQ cents v = c))
    if assigned.isEmpty then farthestAssigned vectors cents else centroidMean assigned)

/-- Modelled from the spec: iterate `kmeansStep` until the assignment no
longer changes or `max_iterations` is reached. -/
def kmeansIter (vectors : List (List Rat)) : Nat → List (List Rat) → List (List Rat)
  | 0, cents => cents
  | fuel + 1, cents =>
    let cents2 := kmeansStep vectors cents
    if vectors.map (nearestCentroidQ cents2) = vectors.map (nearestCentroidQ cents) then cents2
    else kmeansIter vectors fuel cents2

/-- Modelled from the spec: a linear-congruential step standing in for the
seeded pseudo-random number generator used to sample initial centroids
(64-bit multiplier/increment, reduced mod 2^64). -/
def lcgStep (s : Nat) : Nat :=
  (6364136223846793005 * s + 1442695040888963407) % 18446744073709551616

/-- Modelled from the spec: seeded sampling of `n` distinct vectors from the
pool of distinct input vectors — each draw removes the chosen vector, and the
seed alone drives every choice. -/
def sampleDistinct : List (List Rat) → Nat → Nat → List (List Rat)
  | _, 0, _ => []
  | [], _ + 1, _ => []
  | p :: ps, n + 1, s =>
    (p :: ps).getD (s % (ps.length + 1)) [] ::
      sampleDistinct ((p :: ps).eraseIdx (s % (ps.length + 1))) n (lcgStep s)

/-- Modelled from the spec: `Clusterer.build` — initialize `nlist` centroids
by seeded sampling of distinct input vectors (capping `nlist` at the number
of distinct vectors), then run assign/recompute iterations until the
assignment stabilizes or `max_iterations` is reached.  All randomness is a
pure function of `seed`. -/
def Clusterer.build (vectors : List (List Rat)) (nlist max_iterations seed : Nat) :
    List (List Rat) :=
  let pool := vectors.eraseDups
  kmeansIter vectors max_iterations (sampleDistinct pool (min nlist pool.length) seed)

/-- A field descriptor of the collection schema, as built by
`create_milvus_collection` (`FieldSchema(...)` in the source). -/
structure FieldSpec where
  name : String
  is_primary : Bool
  max_length : Option Nat
  dim : Option Nat
deriving DecidableEq

/-- The four fields of the schema defined in `create_milvus_collection`:
`IDX_PX` (int64 primary key), `IDX_NM` and `WP_HTML_TRSF_CN` (varchar,
max length 20000), and `embedding` (float vector of dimension 384). -/
def milvusFields : List FieldSpec :=
  [⟨"IDX_PX", true, none, none⟩,
   ⟨"IDX_NM", false, some 20000, none⟩,
   ⟨"WP_HTML_TRSF_CN", false, some 20000, none⟩,
   ⟨"embedding", false, none, some 384⟩]

/-- The vector dimension a schema declares (its first vector field). -/
def schemaDim (fields : List FieldSpec) : Option Nat :=
  (fields.filterMap (fun f => f.dim)).head?

/-- The state of the Milvus server: its named collections, each holding a
vector store. -/
structure MilvusState where
  collections : List (String × VectorStore)
deriving DecidableEq

/-- Embeds `utility.has_collection`. -/
def hasCollection (st : MilvusState) (name : String) : Bool :=
  st.collections.any (fun c => decide (c.1 = name))

/-- Embeds `utility.drop_collection`: removes every collection with the given
name together with its data. -/
def dropCollection (st : MilvusState) (name : String) : MilvusState :=
  ⟨st.collections.filter (fun c => decide (c.1 ≠ name))⟩

/-- The empty collection `create_milvus_collection` creates, with the
dimension declared by the schema (384). -/
def freshCollection : VectorStore :=
  { dim := (schemaDim milvusFields).getD 0, flushed := [], buffer := [] }

/-- Embeds `create_milvus_collection` from `src/data_insert.py`: if a
collection with the given name already exists it is dropped, then a new empty
collection with the fixed schema is created under that name.  The function
has no failure outcome. -/
def create_milvus_collection (st : MilvusState) (collection_name : String) :
    MilvusState × VectorStore :=
  let st1 := if hasCollection st collection_name then dropCollection st collection_name else st
  (⟨st1.collections ++ [(collection_name, freshCollection)]⟩, freshCollection)

/-- Looks a collection up by name in the server state. -/
def lookupCollection (st : MilvusState) (name : String) : Option VectorStore :=
  (st.collections.find? (fun c => decide (c.1 = name))).map (fun c => c.2)

/-- A data row as `insert_data_to_milvus` extracts it from the dataframe:
primary key `IDX_PX`, the `IDX_NM` and `WP_HTML_TRSF_CN` strings, and the
embedding vector. -/
structure Row where
  idpx : Int
  idxNm : String
  trsfCN : String
  embedding : List Int
deriving DecidableEq

/-- The record a row becomes inside the collection. -/
def rowRecord (r : Row) : Record :=
  ⟨r.idpx, [("IDX_NM", r.idxNm), ("WP_HTML_TRSF_CN", r.trsfCN)], r.embedding⟩

/-- Embeds `insert_data_to_milvus` from `src/data_insert.py`: insert the
rows' columns into the collection, then immediately flush. -/
def insert_data_to_milvus (collection : VectorStore) (data : List Row) :
    Except StoreError VectorStore :=
  (collection.insert (data.map rowRecord)).map VectorStore.flush

/-- A raw CSV row before embedding generation: primary key, index name, and
the text column the embedding is computed from. -/
structure RawRow where
  idpx : Int
  idxNm : String
  text : String

/-- Embeds `generate_embeddings` from `src/data_insert.py`: apply the
embedding model `encode` to the text column of every row and store the result
in the `embedding` column.  The model itself
(`SentenceTransformer('all-MiniLM-L6-v2')`) is an external collaborator; the
spec declares it produces vectors of a fixed dimension (384). -/
def generate_embeddings (encode : String → List Int) (data : List RawRow) : List Row :=
  data.map (fun r => ⟨r.idpx, r.idxNm, r.text, encode r.text⟩)

/-- The index parameters of `create_index` in `src/data_insert.py`. -/
structure IndexParams where
  metric_type : String
  index_type : String
  nlist : Nat
deriving DecidableEq

/-- `index_params` as written in `create_index`: L2 metric, IVF_FLAT, 128
clusters. -/
def create_index_params : IndexParams :=
  ⟨"L2", "IVF_FLAT", 128⟩

/-- The search parameters of `search_similar_data` in `src/data_insert.py`. -/
structure SearchParams where
  metric_type : String
  nprobe : Nat
deriving DecidableEq

/-- `search_params` as written in `search_similar_data`: L2 metric,
`nprobe = 10`. -/
def search_params : SearchParams :=
  ⟨"L2", 10⟩

/-- The `limit` argument of `collection.search(...)` in
`search_similar_data`. -/
def search_limit : Nat := 3

/-- Embeds the search call of `search_similar_data`: one search per query in
`embeddings[:1]` (the first embedding), with `limit = 3` and the `nprobe = 10`
search parameters. -/
def search_similar_data (idx : IVFIndex) (collection : VectorStore) (data : List Row) :
    List (Except StoreError (List (Int × Int))) :=
  ((data.map (fun r => r.embedding)).take 1).map
    (fun q => QueryEngine.search idx collection q search_limit search_params.nprobe)

/-- The spec's concrete scenario: dimension 4, records `1:[0,0,0,0]`,
`2:[1,0,0,0]`, `3:[10,10,10,10]`, all flushed. -/
def specStore : VectorStore :=
  ⟨4, [⟨1, [], [0, 0, 0, 0]⟩, ⟨2, [], [1, 0, 0, 0]⟩, ⟨3, [], [10, 10, 10, 10]⟩], []⟩

/-- Two centroids for the spec's concrete scenario (`nlist = 2`). -/
def specCents : List (List Int) :=
  [[0, 0, 0, 0], [10, 10, 10, 10]]

/-- A two-record one-dimensional store whose records fall into different
clusters, used to exercise a search that probes only one of two centroids. -/
def cexStore : VectorStore :=
  ⟨1, [⟨1, [], [0]⟩, ⟨2, [], [10]⟩], []⟩

/-- Two centroids, one per record of `cexStore`. -/
def cexCents : List (List Int) :=
  [[0], [10]]

/-- A store holding one buffered, not yet flushed, record with id 5. -/
def bufStore : VectorStore :=
  ⟨1, [], [⟨5, [], [0]⟩]⟩

/-- A 384-dimensional collection holding one flushed record with id 7. -/
def demoStore : VectorStore :=
  ⟨384, [⟨7, [], List.replicate 384 0⟩], []⟩

/-- A server state with one nonempty collection named `my_collection`. -/
def demoState : MilvusState :=
  ⟨[("my_collection", demoStore)]⟩

/-- The probe order is a permutation of all centroid indices. -/
theorem probeOrder_perm_range (cents : List (List Int)) (q : List Int) :
    List.Perm (probeOrder cents q) (List.range cents.length) := by
  unfold probeOrder
  have h1 := List.perm_insertionSort centRel
    ((List.range cents.length).map (fun c => (sqL2 q (cents.getD c []), c)))
  refine (h1.map (fun p : Int × Nat => p.2)).trans ?_
  rw [List.map_map]
  have h2 : ((fun p : Int × Nat => p.2) ∘ (fun c => (sqL2 q (cents.getD c []), c))) = id := rfl
  rw [h2, List.map_id]

/-- The probe order ranks exactly `cents.length` centroids. -/
theorem probeOrder_length (cents : List (List Int)) (q : List Int) :
    (probeOrder cents q).length = cents.length := by
  have h := (probeOrder_perm_range cents q).length_eq
  simpa using h

/-- With `nprobe` at least the number of centroids, every centroid is
probed. -/
theorem probeList_all (cents : List (List Int)) (q : List Int) (nprobe : Nat)
    (h : cents.length ≤ nprobe) :
    probeList cents q nprobe = probeOrder cents q := by
  unfold probeList
  exact List.take_of_length_le (by rw [probeOrder_length]; exact h)

/-- `probeList` probes `min nprobe cents.length` centroids. -/
theorem probeList_length (cents : List (List Int)) (q : List Int) (nprobe : Nat) :
    (probeList cents q nprobe).length = min nprobe cents.length := by
  unfold probeList
  rw [List.length_take, probeOrder_length]

/-- With at least one centroid, the nearest-centroid index is in range. -/
theorem nearestCentroid_lt (cents : List (List Int)) (hc : cents ≠ []) (v : List Int) :
    nearestCentroid cents v < cents.length := by
  unfold nearestCentroid
  have hlen : (probeOrder cents v).length = cents.length := probeOrder_length cents v
  have hne : probeOrder cents v ≠ [] := by
    intro hnil
    rw [hnil] at hlen
    exact hc (List.length_eq_zero.mp hlen.symm)
  have hmem : (probeOrder cents v).headD 0 ∈ probeOrder cents v := by
    cases hpo : probeOrder cents v with
    | nil => exact absurd hpo hne
    | cons a t => simp [List.headD]
  exact List.mem_range.mp (((probeOrder_perm_range cents v).mem_iff).mp hmem)

/-- Pulling one distinguished element out of a `flatMap` over a duplicate-free
index list: if `g` and `g2` agree everywhere except that `g c0` has the extra
head `x`, the two flat maps differ by exactly that element. -/
theorem flatMap_single_out {β : Type} (L : List Nat) (c0 : Nat) (hmem : c0 ∈ L)
    (hnd : L.Nodup) (g g2 : Nat → List β) (x : β)
    (h0 : g c0 = x :: g2 c0) (hrest : ∀ c, c ≠ c0 → g c = g2 c) :
    List.Perm (L.flatMap g) (x :: L.flatMap g2) := by
  induction L with
  | nil => cases hmem
  | cons a t ih =>
    rcases List.mem_cons.mp hmem with rfl | hmemt
    · have hnotin : c0 ∉ t := (List.nodup_cons.mp hnd).1
      have hcongr : t.flatMap g = t.flatMap g2 :=
        List.flatMap_congr (fun c hct => hrest c (fun hceq => hnotin (hceq ▸ hct)))
      rw [List.flatMap_cons, List.flatMap_cons, h0, hcongr]
      exact List.Perm.refl _
    · have hne : a ≠ c0 := fun hceq => (List.nodup_cons.mp hnd).1 (hceq ▸ hmemt)
      rw [List.flatMap_cons, List.flatMap_cons, hrest a hne]
      refine ((ih hmemt (List.nodup_cons.mp hnd).2).append_left (g2 a)).trans ?_
      exact List.perm_middle

/-- Flat-mapping the per-cluster filtered groups over all cluster indices is
a permutation of the original list: the groups partition it. -/
theorem range_flatMap_filter_perm {α β : Type} (l : List α) (assign : α → Nat) (f : α → β)
    (n : Nat) (h : ∀ x ∈ l, assign x < n) :
    List.Perm
      ((List.range n).flatMap (fun c => (l.filter (fun x => decide (assign x = c))).map f))
      (l.map f) := by
  induction l with
  | nil => simp
  | cons a t ih =>
    have ha : assign a < n := h a (by simp)
    have ht : ∀ x ∈ t, assign x < n := fun x hx => h x (by simp [hx])
    have key := flatMap_single_out (List.range n) (assign a) (List.mem_range.mpr ha)
      (List.nodup_range n)
      (fun c => (((a :: t).filter (fun x => decide (assign x = c))).map f))
      (fun c => ((t.filter (fun x => decide (assign x = c))).map f))
      (f a) (by simp [List.filter_cons]) ?_
    · exact key.trans ((ih ht).cons (f a))
    · intro c hc
      have hne : assign a ≠ c := fun hceq => hc (hceq ▸ rfl)
      simp [List.filter_cons, hne]

/-- In a store whose flushed ids are duplicate-free, looking a flushed record
up by its own id finds exactly that record. -/
theorem find?_flushed_eq (l : List Record) (hnd : (l.map (fun r => r.id)).Nodup)
    (r : Record) (hr : r ∈ l) :
    l.find? (fun x => decide (x.id = r.id)) = some r := by
  induction l with
  | nil => cases hr
  | cons a t ih =>
    rw [List.map_cons] at hnd
    have hnd2 := List.nodup_cons.mp hnd
    rcases List.mem_cons.mp hr with rfl | hrt
    · exact List.find?_cons_of_pos _ (by simp)
    · have hne : a.id ≠ r.id := fun heq => hnd2.1 (heq ▸ List.mem_map.mpr ⟨r, hrt, rfl⟩)
      rw [List.find?_cons_of_neg _ (by simpa using hne)]
      exact ih hnd2.2 hrt

/-- `filterMap` after `map` collapses to a plain `map` when the partial
function is total on the image. -/
theorem filterMap_map_eq_map {α β γ : Type} (l : List α) (f : α → β) (g : β → Option γ)
    (h : α → γ) (hh : ∀ a ∈ l, g (f a) = some (h a)) :
    (l.map f).filterMap g = l.map h := by
  induction l with
  | nil => rfl
  | cons a t ih =>
    rw [List.map_cons, List.filterMap_cons, hh a (by simp), List.map_cons]
    rw [ih (fun x hx => hh x (by simp [hx]))]

/-- The posting list of a valid cluster index, as built by
`IVFIndex.build`. -/
theorem build_postings_getD (store : VectorStore) (cents : List (List Int)) (c : Nat)
    (hc : c < cents.length) :
    (IVFIndex.build store cents).postings.getD c [] =
      (store.flushed.filter (fun r => decide (nearestCentroid cents r.vector = c))).map
        (fun r => r.id) := by
  unfold IVFIndex.build
  simp [List.getD, List.getElem?_map, List.getElem?_range, hc]

/-- When every centroid is probed, the candidate set of `search` is a
permutation of the exact scoring of all flushed records. -/
theorem searchCandidates_full (store : VectorStore) (cents : List (List Int)) (q : List Int)
    (nprobe : Nat) (hc : cents ≠ []) (hn : cents.length ≤ nprobe)
    (hnd : (store.flushed.map (fun r => r.id)).Nodup) :
    List.Perm (searchCandidates (IVFIndex.build store cents) store q nprobe)
      (store.flushed.map (fun r => (r.id, sqL2 q r.vector))) := by
  unfold searchCandidates
  have hcents : (IVFIndex.build store cents).centroids = cents := rfl
  rw [hcents, probeList_all cents q nprobe hn]
  have hperm1 : List.Perm
      ((probeOrder cents q).flatMap (fun c => (IVFIndex.build store cents).postings.getD c []))
      ((List.range cents.length).flatMap
        (fun c => (IVFIndex.build store cents).postings.getD c [])) :=
    (probeOrder_perm_range cents q).flatMap_right _
  have heq : ((List.range cents.length).flatMap
      (fun c => (IVFIndex.build store cents).postings.getD c []))
      = (List.range cents.length).flatMap (fun c =>
        (store.flushed.filter (fun r => decide (nearestCentroid cents r.vector = c))).map
          (fun r => r.id)) :=
    List.flatMap_congr
      (fun c hcmem => build_postings_getD store cents c (List.mem_range.mp hcmem))
  have hperm2 := range_flatMap_filter_perm store.flushed
    (fun r => nearestCentroid cents r.vector) (fun r => r.id) cents.length
    (fun r _ => nearestCentroid_lt cents hc r.vector)
  have hids : List.Perm
      ((probeOrder cents q).flatMap (fun c => (IVFIndex.build store cents).postings.getD c []))
      (store.flushed.map (fun r => r.id)) := (heq ▸ hperm1).trans hperm2
  refine (hids.filterMap _).trans ?_
  rw [filterMap_map_eq_map store.flushed (fun r => r.id)
    (fun i => (store.flushed.find? (fun r => decide (r.id = i))).map
      (fun r => (i, sqL2 q r.vector)))
    (fun r => (r.id, sqL2 q r.vector))
    (fun r hr => by simp [find?_flushed_eq store.flushed hnd r hr])]

/-- When every centroid is probed, the top-k of the probed candidates is
exactly the brute-force top-k over all flushed records. -/
theorem searchCore_full (store : VectorStore) (cents : List (List Int)) (q : List Int)
    (k nprobe : Nat) (hc : cents ≠ []) (hn : cents.length ≤ nprobe)
    (hnd : (store.flushed.map (fun r => r.id)).Nodup) :
    searchCore (IVFIndex.build store cents) store q k nprobe = bruteForceTopK store q k := by
  unfold searchCore bruteForceTopK
  refine congrArg (List.take k) ?_
  apply List.eq_of_perm_of_sorted (r := resRel)
  · exact (List.perm_insertionSort resRel _).trans
      ((searchCandidates_full store cents q nprobe hc hn hnd).trans
        (List.perm_insertionSort resRel _).symm)
  · exact List.sorted_insertionSort resRel _
  · exact List.sorted_insertionSort resRel _

/-- C2: for every store whose flushed ids are duplicate-free, every nonempty
centroid table, every query of the collection dimension and every `k > 0`,
`search` with `nprobe` equal to the total number of centroids returns exactly
the true top-k by exact distance — it equals the brute-force linear scan over
all indexed records (100% recall). -/
theorem search_full_probe_exact (store : VectorStore) (cents : List (List Int))
    (q : List Int) (k nprobe : Nat)
    (hnd : (store.flushed.map (fun r => r.id)).Nodup)
    (hc : cents ≠ []) (hq : q.length = store.dim) (hk : 0 < k)
    (hn : nprobe = cents.length) :
    QueryEngine.search (IVFIndex.build store cents) store q k nprobe =
      Except.ok (bruteForceTopK store q k) := by
  have hnp : ¬ nprobe = 0 := by
    have hpos : 0 < cents.length := List.length_pos.mpr hc
    omega
  unfold QueryEngine.search
  rw [if_neg (by simp [hq]), if_neg (by omega), if_neg hnp]
  rw [searchCore_full store cents q k nprobe hc (by omega) hnd]

/-- Witness for `search_full_probe_exact` at the spec's concrete scenario. -/
theorem search_full_probe_exact_witness :
    QueryEngine.search (IVFIndex.build specStore specCents) specStore [0, 0, 0, 0] 2 2 =
      Except.ok (bruteForceTopK specStore [0, 0, 0, 0] 2) :=
  search_full_probe_exact specStore specCents [0, 0, 0, 0] 2 2 (by decide) (by decide)
    (by decide) (by decide) (by decide)

/-- C3: after every `IVFIndex.build` over a nonempty centroid table and a
store with duplicate-free flushed ids, every flushed record id appears in
exactly one posting list. -/
theorem build_index_partitions (store : VectorStore) (cents : List (List Int))
    (hc : cents ≠ []) (hnd : (store.flushed.map (fun r => r.id)).Nodup) :
    ∀ r ∈ store.flushed, ∃! c : Nat,
      c < cents.length ∧ r.id ∈ (IVFIndex.build store cents).postings.getD c [] := by
  intro r hr
  refine ⟨nearestCentroid cents r.vector,
    ⟨nearestCentroid_lt cents hc r.vector, ?_⟩, ?_⟩
  · rw [build_postings_getD store cents _ (nearestCentroid_lt cents hc r.vector)]
    exact List.mem_map.mpr ⟨r, List.mem_filter.mpr ⟨hr, by simp⟩, rfl⟩
  · rintro c ⟨hclt, hcmem⟩
    rw [build_postings_getD store cents c hclt] at hcmem
    obtain ⟨r2, hr2mem, hr2id⟩ := List.mem_map.mp hcmem
    obtain ⟨hr2fl, hr2p⟩ := List.mem_filter.mp hr2mem
    have hr2r : r2 = r := List.inj_on_of_nodup_map hnd hr2fl hr hr2id
    have hnear : nearestCentroid cents r2.vector = c := by simpa using hr2p
    rw [← hnear, hr2r]

/-- Witness for `build_index_partitions`: record 1 of the spec scenario lies
in exactly one of the two posting lists. -/
theorem build_index_partitions_witness :
    ∃! c : Nat, c < specCents.length ∧
      (1 : Int) ∈ (IVFIndex.build specStore specCents).postings.getD c [] :=
  build_index_partitions specStore specCents (by decide) (by decide)
    ⟨1, [], [0, 0, 0, 0]⟩ (by decide)

/-- C5 (amended): every successful search returns at most `k` results sorted
ascending by distance with ties by lowest id; a valid query never fails just
because `k` exceeds the number of indexed records, and — provided every
centroid is probed — a `k` of at least the record count makes the result
contain exactly all indexed records. -/
theorem search_results_shape (store : VectorStore) (cents : List (List Int))
    (q : List Int) (k nprobe : Nat)
    (hq : q.length = store.dim) (hk : 0 < k) (hn : 0 < nprobe) :
    ∃ res, QueryEngine.search (IVFIndex.build store cents) store q k nprobe =
        Except.ok res ∧
      res.length ≤ k ∧ List.Sorted resRel res ∧
      (store.count ≤ k → cents.length ≤ nprobe → cents ≠ [] →
        (store.flushed.map (fun r => r.id)).Nodup →
        List.Perm res (store.flushed.map (fun r => (r.id, sqL2 q r.vector)))) := by
  refine ⟨searchCore (IVFIndex.build store cents) store q k nprobe, ?_, ?_, ?_, ?_⟩
  · unfold QueryEngine.search
    rw [if_neg (by simp [hq]), if_neg (by omega), if_neg (by omega)]
  · unfold searchCore
    rw [List.length_take]
    exact min_le_left _ _
  · unfold searchCore
    exact List.Pairwise.sublist (List.take_sublist _ _) (List.sorted_insertionSort resRel _)
  · intro hcount hnall hcne hnd
    rw [searchCore_full store cents q k nprobe hcne hnall hnd]
    unfold bruteForceTopK
    have hlen : (List.insertionSort resRel
        (store.flushed.map (fun r => (r.id, sqL2 q r.vector)))).length ≤ k := by
      rw [List.length_insertionSort, List.length_map]
      exact hcount
    rw [List.take_of_length_le hlen]
    exact List.perm_insertionSort resRel _

/-- Witness for `search_results_shape` with `k = 5` exceeding the three
indexed records of the spec scenario. -/
theorem search_results_shape_witness :
    ∃ res, QueryEngine.search (IVFIndex.build specStore specCents) specStore
        [0, 0, 0, 0] 5 2 = Except.ok res ∧
      res.length ≤ 5 ∧ List.Sorted resRel res ∧
      (specStore.count ≤ 5 → specCents.length ≤ 2 → specCents ≠ [] →
        (specStore.flushed.map (fun r => r.id)).Nodup →
        List.Perm res (specStore.flushed.map
          (fun r => (r.id, sqL2 [0, 0, 0, 0] r.vector)))) :=
  search_results_shape specStore specCents [0, 0, 0, 0] 5 2 (by decide) (by decide)
    (by decide)

/-- Counterexample to C5 as stated: with `nprobe = 1` of two centroids and
`k = 3` exceeding the two indexed records, the search succeeds but returns
only the record of the single probed cluster — not all indexed records. -/
theorem search_results_counterexample :
    QueryEngine.search (IVFIndex.build cexStore cexCents) cexStore [0] 3 1 =
      Except.ok [((1 : Int), (0 : Int))] ∧
    cexStore.count = 2 ∧ cexStore.count < 3 ∧
    ¬ (∀ r ∈ cexStore.flushed, ∃ p ∈ [((1 : Int), (0 : Int))], p.1 = r.id) := by
  decide

/-- C6 (amended): starting from a store with an empty buffer, inserting a
batch of valid (correct-dimension, fresh-id) records and flushing raises
`count` by exactly the batch size. -/
theorem insert_flush_count (s : VectorStore) (recs : List Record)
    (hbuf : s.buffer = [])
    (hdim : ∀ r ∈ recs, r.vector.length = s.dim)
    (hnew : ∀ r ∈ recs, ¬ r.id ∈ storeIds s) :
    ∃ s1, s.insert recs = Except.ok s1 ∧
      s1.flush.count = s.count + recs.length := by
  have h1 : ¬ (recs.any (fun r => decide (r.vector.length ≠ s.dim)) = true) := by
    simp only [List.any_eq_true, decide_eq_true_eq]
    rintro ⟨r, hr, hne⟩
    exact hne (hdim r hr)
  have h2 : ¬ (recs.any (fun r => decide (r.id ∈ storeIds s)) = true) := by
    simp only [List.any_eq_true, decide_eq_true_eq]
    rintro ⟨r, hr, hmem⟩
    exact hnew r hr hmem
  refine ⟨{ s with buffer := s.buffer ++ recs }, ?_, ?_⟩
  · unfold VectorStore.insert
    rw [if_neg h1, if_neg h2]
  · unfold VectorStore.flush VectorStore.count
    simp [hbuf]

/-- Witness for `insert_flush_count`: one fresh valid record on a one-record
store. -/
theorem insert_flush_count_witness :
    ∃ s1, VectorStore.insert ⟨1, [⟨5, [], [0]⟩], []⟩ [⟨6, [], [1]⟩] = Except.ok s1 ∧
      s1.flush.count = (⟨1, [⟨5, [], [0]⟩], []⟩ : VectorStore).count + 1 :=
  insert_flush_count ⟨1, [⟨5, [], [0]⟩], []⟩ [⟨6, [], [1]⟩] rfl (by decide) (by decide)

/-- Counterexample to C6 as stated: starting from a store with a nonempty
buffer, inserting one valid fresh record and flushing raises `count` by 2
(the batch plus the previously buffered record), not by 1. -/
theorem insert_flush_count_counterexample :
    bufStore.buffer ≠ [] ∧
    (∀ r ∈ [(⟨6, [], [1]⟩ : Record)], r.vector.length = bufStore.dim) ∧
    (∀ r ∈ [(⟨6, [], [1]⟩ : Record)], ¬ r.id ∈ storeIds bufStore) ∧
    bufStore.insert [⟨6, [], [1]⟩] =
      Except.ok ⟨1, [], [⟨5, [], [0]⟩, ⟨6, [], [1]⟩]⟩ ∧
    (VectorStore.flush ⟨1, [], [⟨5, [], [0]⟩, ⟨6, [], [1]⟩]⟩).count = 2 ∧
    bufStore.count + 1 = 1 := by
  decide

/-- C7: inserting a batch containing any vector of the wrong length always
fails with `DimensionMismatch` and produces no new store state (the caller's
state is untouched — atomic rejection, no coercion). -/
theorem insert_dimension_mismatch (s : VectorStore) (recs : List Record)
    (h : ∃ r ∈ recs, r.vector.length ≠ s.dim) :
    s.insert recs = Except.error StoreError.DimensionMismatch ∧
    ∀ s2, s.insert recs ≠ Except.ok s2 := by
  obtain ⟨r, hr, hne⟩ := h
  have hany : recs.any (fun r => decide (r.vector.length ≠ s.dim)) = true :=
    List.any_eq_true.mpr ⟨r, hr, by simpa using hne⟩
  constructor
  · unfold VectorStore.insert
    rw [if_pos hany]
  · intro s2 hcontra
    unfold VectorStore.insert at hcontra
    rw [if_pos hany] at hcontra
    exact Except.noConfusion hcontra

/-- Witness for `insert_dimension_mismatch`: a 1-vector inserted into a
dimension-2 store. -/
theorem insert_dimension_mismatch_witness :
    VectorStore.insert ⟨2, [], []⟩ [⟨1, [], [0]⟩] =
        Except.error StoreError.DimensionMismatch ∧
    ∀ s2, VectorStore.insert ⟨2, [], []⟩ [⟨1, [], [0]⟩] ≠ Except.ok s2 :=
  insert_dimension_mismatch ⟨2, [], []⟩ [⟨1, [], [0]⟩]
    ⟨⟨1, [], [0]⟩, by decide, by decide⟩

/-- A successful `insert` appends exactly the batch to the buffer. -/
theorem insert_ok_shape (s : VectorStore) (recs : List Record) (s1 : VectorStore)
    (h : s.insert recs = Except.ok s1) :
    s1 = { s with buffer := s.buffer ++ recs } := by
  unfold VectorStore.insert at h
  split at h
  · exact Except.noConfusion h
  · split at h
    · exact Except.noConfusion h
    · injection h with h1
      exact h1.symm

/-- C8: `insert_data_to_milvus` flushes immediately after inserting — on
success the returned collection is exactly the flush of the post-insert
collection, its buffer is empty, and every inserted row is flushed (visible
to a subsequent index build and search). -/
theorem insert_data_to_milvus_flushes (collection : VectorStore) (data : List Row)
    (c2 : VectorStore) (h : insert_data_to_milvus collection data = Except.ok c2) :
    ∃ c1, collection.insert (data.map rowRecord) = Except.ok c1 ∧
      c2 = c1.flush ∧ c2.buffer = [] ∧
      ∀ row ∈ data, rowRecord row ∈ c2.flushed := by
  unfold insert_data_to_milvus at h
  cases hins : collection.insert (data.map rowRecord) with
  | error e =>
    rw [hins] at h
    exact Except.noConfusion h
  | ok c1 =>
    rw [hins] at h
    have hc2 : c2 = c1.flush := by
      injection h with h1
      exact h1.symm
    have hshape := insert_ok_shape collection (data.map rowRecord) c1 hins
    refine ⟨c1, rfl, hc2, by rw [hc2]; rfl, ?_⟩
    intro row hrow
    rw [hc2, hshape]
    show rowRecord row ∈ collection.flushed ++ (collection.buffer ++ data.map rowRecord)
    refine List.mem_append.mpr (Or.inr (List.mem_append.mpr (Or.inr ?_)))
    exact List.mem_map.mpr ⟨row, hrow, rfl⟩

/-- Witness for `insert_data_to_milvus_flushes` on a one-row batch into an
empty dimension-1 collection. -/
theorem insert_data_to_milvus_flushes_witness :
    ∃ c1, VectorStore.insert ⟨1, [], []⟩ ([(⟨1, "a", "b", [0]⟩ : Row)].map rowRecord) =
        Except.ok c1 ∧
      (⟨1, [rowRecord ⟨1, "a", "b", [0]⟩], []⟩ : VectorStore) = c1.flush ∧
      (⟨1, [rowRecord ⟨1, "a", "b", [0]⟩], []⟩ : VectorStore).buffer = [] ∧
      ∀ row ∈ [(⟨1, "a", "b", [0]⟩ : Row)],
        rowRecord row ∈ (⟨1, [rowRecord ⟨1, "a", "b", [0]⟩], []⟩ : VectorStore).flushed :=
  insert_data_to_milvus_flushes ⟨1, [], []⟩ [⟨1, "a", "b", [0]⟩]
    ⟨1, [rowRecord ⟨1, "a", "b", [0]⟩], []⟩ (by decide)

/-- C1 (amended): `create_milvus_collection` on an existing name never fails —
it implicitly drops the existing collection (discarding its data) and
recreates an empty one, which is then the only collection under that name. -/
theorem create_existing_overwrites (st : MilvusState) (collection_name : String)
    (h : hasCollection st collection_name = true) :
    lookupCollection (create_milvus_collection st collection_name).1 collection_name =
      some freshCollection ∧ freshCollection.count = 0 := by
  constructor
  · unfold create_milvus_collection lookupCollection
    rw [if_pos h]
    show (((dropCollection st collection_name).collections ++
        [(collection_name, freshCollection)]).find?
          (fun c => decide (c.1 = collection_name))).map (fun c => c.2) =
      some freshCollection
    rw [List.find?_append]
    have hnone : (dropCollection st collection_name).collections.find?
        (fun c => decide (c.1 = collection_name)) = none := by
      rw [List.find?_eq_none]
      intro x hx
      have hx2 : x ∈ st.collections.filter (fun c => decide (c.1 ≠ collection_name)) := hx
      have hmem := List.mem_filter.mp hx2
      simpa using hmem.2
    rw [hnone]
    rw [List.find?_cons_of_pos _ (by simp)]
    rfl
  · rfl

/-- Witness for `create_existing_overwrites` at the populated server state. -/
theorem create_existing_overwrites_witness :
    lookupCollection (create_milvus_collection demoState "my_collection").1
        "my_collection" = some freshCollection ∧
    freshCollection.count = 0 :=
  create_existing_overwrites demoState "my_collection" (by decide)

/-- Counterexample to C1 as stated: calling `create_milvus_collection` on the
existing name `my_collection` (whose collection holds one record) does not
fail with `AlreadyExists` — it succeeds and silently replaces the collection
with an empty one, losing the record. -/
theorem create_existing_counterexample :
    hasCollection demoState "my_collection" = true ∧
    (lookupCollection demoState "my_collection").map VectorStore.count = some 1 ∧
    (lookupCollection (create_milvus_collection demoState "my_collection").1
        "my_collection").map VectorStore.count = some 0 := by
  decide

/-- C4: `Clusterer.build` is deterministic in its seed — the centroids are a
pure function of the input vectors, `nlist`, `max_iterations` and the seed, so
two runs with equal seeds produce identical centroid sequences. -/
theorem clusterer_build_deterministic (vectors : List (List Rat))
    (nlist max_iterations s1 s2 : Nat) (h : s1 = s2) :
    Clusterer.build vectors nlist max_iterations s1 =
      Clusterer.build vectors nlist max_iterations s2 := by
  rw [h]

/-- Witness for `clusterer_build_deterministic` at a concrete input and
seed. -/
theorem clusterer_build_deterministic_witness :
    Clusterer.build [[0, 0], [1, 1], [10, 10], [11, 11]] 2 5 42 =
      Clusterer.build [[0, 0], [1, 1], [10, 10], [11, 11]] 2 5 42 :=
  clusterer_build_deterministic [[0, 0], [1, 1], [10, 10], [11, 11]] 2 5 42 42 rfl

/-- C9: the pipeline fixes metric L2 and `nlist = 128` at index build and
`nprobe = 10`, `limit = 3` at search; `10 < 128`, so the full-recall
condition `nprobe = nlist` is never met, each query probes
`min 10 (number of centroids)` clusters, and every search returns at most 3
results. -/
theorem pipeline_fixed_parameters :
    create_index_params.metric_type = "L2" ∧
    create_index_params.index_type = "IVF_FLAT" ∧
    create_index_params.nlist = 128 ∧
    search_params.metric_type = "L2" ∧
    search_params.nprobe = 10 ∧
    search_limit = 3 ∧
    search_params.nprobe < create_index_params.nlist ∧
    search_params.nprobe ≠ create_index_params.nlist ∧
    (∀ cents q, (probeList cents q search_params.nprobe).length =
      min search_params.nprobe cents.length) ∧
    (∀ idx store q,
      (searchCore idx store q search_limit search_params.nprobe).length ≤ 3) ∧
    (∀ idx collection data, search_similar_data idx collection data =
      ((data.map (fun r => r.embedding)).take 1).map
        (fun q => QueryEngine.search idx collection q 3 10)) := by
  refine ⟨rfl, rfl, rfl, rfl, rfl, rfl, by decide, by decide, ?_, ?_, fun idx c d => rfl⟩
  · intro cents q
    exact probeList_length cents q search_params.nprobe
  · intro idx store q
    unfold searchCore
    rw [List.length_take]
    exact min_le_left _ _

/-- C10: every vector the pipeline inserts comes from the embedding model,
whose declared output dimension is 384 — equal to the schema's declared
dimension — so the `DimensionMismatch` branch of `insert` is unreachable for
pipeline batches. -/
theorem generate_embeddings_dimension_safe (encode : String → List Int)
    (rows : List RawRow) (coll : VectorStore)
    (hdim : ∀ s, (encode s).length = 384) (hcoll : coll.dim = 384) :
    schemaDim milvusFields = some 384 ∧
    freshCollection.dim = 384 ∧
    (∀ row ∈ generate_embeddings encode rows, row.embedding.length = 384) ∧
    coll.insert ((generate_embeddings encode rows).map rowRecord) ≠
      Except.error StoreError.DimensionMismatch := by
  refine ⟨rfl, rfl, ?_, ?_⟩
  · intro row hrow
    obtain ⟨r, _, hmap⟩ := List.mem_map.mp hrow
    rw [← hmap]
    exact hdim r.text
  · have hno : ¬ (((generate_embeddings encode rows).map rowRecord).any
        (fun r => decide (r.vector.length ≠ coll.dim)) = true) := by
      simp only [List.any_eq_true, decide_eq_true_eq]
      rintro ⟨r, hr, hne⟩
      apply hne
      obtain ⟨row, hrow, hrr⟩ := List.mem_map.mp hr
      rw [← hrr]
      show row.embedding.length = coll.dim
      obtain ⟨raw, _, hrow2⟩ := List.mem_map.mp hrow
      rw [← hrow2]
      show (encode raw.text).length = coll.dim
      rw [hdim raw.text, hcoll]
    unfold VectorStore.insert
    rw [if_neg hno]
    split
    · simp
    · simp

/-- Witness for `generate_embeddings_dimension_safe` with a constant-output
384-dimensional embedding model and a one-row input. -/
theorem generate_embeddings_dimension_safe_witness :
    schemaDim milvusFields = some 384 ∧
    freshCollection.dim = 384 ∧
    (∀ row ∈ generate_embeddings (fun _ => List.replicate 384 0) [⟨1, "a", "b"⟩],
      row.embedding.length = 384) ∧
    freshCollection.insert
        ((generate_embeddings (fun _ => List.replicate 384 0) [⟨1, "a", "b"⟩]).map
          rowRecord) ≠
      Except.error StoreError.DimensionMismatch :=
  generate_embeddings_dimension_safe (fun _ => List.replicate 384 0) [⟨1, "a", "b"⟩]
    freshCollection (fun _ => List.length_replicate 384 0) rfl
